import Mathlib

/-!
Verification of the identity & data-access core of `ariamh/my-api`
(Go, Fiber + GORM). This file shallowly embeds the code of
`internal/service/user_service.go`, `internal/service/auth_service.go`,
`internal/handler/user_handler.go`, `internal/repository/repository.go`
and `internal/model/user.go`, and proves properties about the embedding.

Modelling conventions:
- Go error values are an inductive `Err`; the sentinel errors created by
  `errors.New` in the source (`ErrUserNotFound`, `ErrEmailAlreadyExists`,
  `ErrInvalidCredentials`, `ErrInvalidToken`, `gorm.ErrRecordNotFound`)
  are distinct constructors, and arbitrary infrastructure errors carry a
  string. `errors.Is` on these unwrapped sentinels is value equality.
- A Go `(*T, error)` return where the implementation returns either
  `(v, nil)` or `(nil, err)` is `Except Err T`; a bare `error` return is
  `Option Err` (`none` = nil).
- The `repository.UserRepository` interface consumed by the services is
  an abstract record of functions (the durable backend is an external
  collaborator); each service function also returns the list of
  repository calls it performed, so that "invokes the store with ..." and
  "performs no persist/delete call" are statable.
- `bcrypt.GenerateFromPassword` and `bcrypt.CompareHashAndPassword` are
  external library calls; they are passed in as oracle functions.
- `context.Context` carries no information used by the core and is
  dropped.
-/

/-- Go error values relevant to the core, as distinct sentinel values. -/
inductive Err where
  /-- `gorm.ErrRecordNotFound` -/
  | recordNotFound
  /-- `service.ErrUserNotFound` -/
  | userNotFound
  /-- `service.ErrEmailAlreadyExists` -/
  | emailAlreadyExists
  /-- `service.ErrInvalidCredentials` -/
  | invalidCredentials
  /-- `jwt.ErrInvalidToken` -/
  | invalidToken
  /-- any other backend / infrastructure error, by message -/
  | infra (msg : String)
deriving DecidableEq, Repr

instance {ε α : Type} [DecidableEq ε] [DecidableEq α] :
    DecidableEq (Except ε α) := fun
  | .ok a, .ok b =>
    match decEq a b with
    | isTrue h => isTrue (by rw [h])
    | isFalse h => isFalse (fun hh => h (Except.ok.inj hh))
  | .ok _, .error _ => isFalse (fun hh => Except.noConfusion hh)
  | .error _, .ok _ => isFalse (fun hh => Except.noConfusion hh)
  | .error a, .error b =>
    match decEq a b with
    | isTrue h => isTrue (by rw [h])
    | isFalse h => isFalse (fun hh => h (Except.error.inj hh))

/-- `internal/model/user.go`: the `User` struct. `id` stands for the
embedded `Base.ID` (a UUID rendered by `.String()`); `password` is the
stored bcrypt hash (json tag `-`). -/
structure User where
  id : String
  name : String
  email : String
  password : String
  role : String
  isActive : Bool
deriving DecidableEq, Repr

/-- `internal/service/user_service.go`: `UserResponse` — the outward
serialization, which has exactly the fields id, name, email, role,
is_active and no password field. -/
structure UserResponse where
  id : String
  name : String
  email : String
  role : String
  isActive : Bool
deriving DecidableEq, Repr

/-- `internal/service/user_service.go`: `CreateUserInput`. -/
structure CreateUserInput where
  name : String
  email : String
  password : String
deriving DecidableEq, Repr

/-- `internal/service/user_service.go`: `UpdateUserInput`. -/
structure UpdateUserInput where
  name : String
deriving DecidableEq, Repr

/-- `internal/service/auth_service.go`: `LoginInput`. -/
structure LoginInput where
  email : String
  password : String
deriving DecidableEq, Repr

/-- One call made by a service to the `repository.UserRepository`
interface, with the arguments passed. -/
inductive RepoCall where
  | create (user : User)
  | findByID (id : String)
  | findByEmail (email : String)
  | findAll (page perPage : Int)
  | update (user : User)
  | delete (id : String)
deriving DecidableEq, Repr

/-- The `repository.UserRepository` interface
(`internal/repository/user_repository.go`), abstracted as a record of
behaviours of the durable backend. The concrete implementation returns
either `(value, nil)` or `(nil, err)` from every `(*T, error)` method, so
those are `Except`. -/
structure UserRepo where
  create : User → Option Err
  findByID : String → Except Err User
  findByEmail : String → Except Err User
  findAll : Int → Int → Except Err (List User × Int)
  update : User → Option Err
  delete : String → Option Err

/-- `user_service.go` lines 137–145: `toUserResponse`. -/
def toUserResponse (user : User) : UserResponse :=
  { id := user.id
    name := user.name
    email := user.email
    role := user.role
    isActive := user.isActive }

/-- `user_service.go` lines 64–70: the `model.User` literal built by
`Create` (ID left at its zero value; the backend assigns it). -/
def newUserRecord (input : CreateUserInput) (hashedPassword : String) : User :=
  { id := ""
    name := input.name
    email := input.email
    password := hashedPassword
    role := "user"
    isActive := true }

namespace userService

/-- `user_service.go` lines 53–77: `userService.Create`.
`existing, _ := s.userRepo.FindByEmail(ctx, input.Email)` discards the
lookup error; only a non-nil `existing` short-circuits. `hashFn` is
`bcrypt.GenerateFromPassword`. Returns the result and the repo calls
performed. -/
def Create (repo : UserRepo) (hashFn : String → Except Err String)
    (input : CreateUserInput) : Except Err UserResponse × List RepoCall :=
  match repo.findByEmail input.email with
  | .ok _ => (.error .emailAlreadyExists, [.findByEmail input.email])
  | .error _ =>
    match hashFn input.password with
    | .error e => (.error e, [.findByEmail input.email])
    | .ok hashedPassword =>
      let user := newUserRecord input hashedPassword
      match repo.create user with
      | some e => (.error e, [.findByEmail input.email, .create user])
      | none => (.ok (toUserResponse user), [.findByEmail input.email, .create user])

/-- `user_service.go` lines 79–89: `userService.FindByID`.
`errors.Is(err, gorm.ErrRecordNotFound)` is value equality on the
unwrapped sentinel. -/
def FindByID (repo : UserRepo) (id : String) :
    Except Err UserResponse × List RepoCall :=
  match repo.findByID id with
  | .error e =>
    (if e = .recordNotFound then .error .userNotFound else .error e, [.findByID id])
  | .ok user => (.ok (toUserResponse user), [.findByID id])

/-- `user_service.go` lines 91–103: `userService.FindAll`. The page and
perPage arguments are handed to the store exactly as received. -/
def FindAll (repo : UserRepo) (page perPage : Int) :
    Except Err (List UserResponse × Int) × List RepoCall :=
  match repo.findAll page perPage with
  | .error e => (.error e, [.findAll page perPage])
  | .ok (users, total) =>
    (.ok (users.map (fun u => toUserResponse u), total), [.findAll page perPage])

/-- `user_service.go` lines 114–116: `if input.Name != "" { user.Name =
input.Name }` — the in-place mutation of the fetched user. -/
def applyUpdate (user : User) (input : UpdateUserInput) : User :=
  if input.name ≠ "" then { user with name := input.name } else user

/-- `user_service.go` lines 105–123: `userService.Update`. -/
def Update (repo : UserRepo) (id : String) (input : UpdateUserInput) :
    Except Err UserResponse × List RepoCall :=
  match repo.findByID id with
  | .error e =>
    (if e = .recordNotFound then .error .userNotFound else .error e, [.findByID id])
  | .ok user =>
    let user := applyUpdate user input
    match repo.update user with
    | some e => (.error e, [.findByID id, .update user])
    | none => (.ok (toUserResponse user), [.findByID id, .update user])

/-- `user_service.go` lines 125–135: `userService.Delete`. -/
def Delete (repo : UserRepo) (id : String) : Option Err × List RepoCall :=
  match repo.findByID id with
  | .error e =>
    (some (if e = .recordNotFound then .userNotFound else e), [.findByID id])
  | .ok _ => (repo.delete id, [.findByID id, .delete id])

end userService

namespace UserHandler

/-- `internal/handler/user_handler.go` lines 90–107: `UserHandler.FindAll`
after query parsing (the handler defaults absent params to 1 and 10, then
clamps). The JSON envelope shaping is out of scope; the embedding keeps
the service result and the repository calls it caused. -/
def FindAll (repo : UserRepo) (page perPage : Int) :
    Except Err (List UserResponse × Int) × List RepoCall :=
  let page := if page < 1 then 1 else page
  let perPage := if perPage < 1 ∨ perPage > 100 then 10 else perPage
  userService.FindAll repo page perPage

end UserHandler

/-- Modelled from the spec: `pkg/jwt/jwt.go` is not in src (only its test
`pkg/jwt/jwt_test.go` and callers are). Claims carried by a token — spec
§3 "Identity claims": subject_id, email, role, issued_at, expires_at,
with expires_at = issued_at + TTL. Field names follow the ones the test
reads (`claims.UserID`, `claims.Email`, `claims.Role`). -/
structure Claims where
  userID : String
  email : String
  role : String
  issuedAt : Int
  expiresAt : Int
deriving DecidableEq, Repr

/-- Modelled from the spec: a signed token, symbolically — the payload
together with the secret that signed it, so that `Verify` can check "the
same signing key" (spec §3) without modelling the MAC. -/
structure Token where
  claims : Claims
  signedWith : String
deriving DecidableEq, Repr

/-- Modelled from the spec: the `JWTManager` constructed by
`jwt.NewJWTManager(secret, expireHours)` — "No state is retained between
calls beyond the immutable secret and TTL set at construction" (spec
§4.1); TTL is in hours (spec §6 "token TTL (hours, integer ≥ 0)"). -/
structure JWTManager where
  secret : String
  expireHours : Int
deriving DecidableEq, Repr

namespace JWTManager

/-- Modelled from the spec (§4.1 `Issue`): encodes claims {subject_id,
email, role, issued_at=now, expires_at=now+ttl} and signs with the fixed
secret; signing failure is the only failure mode, absent from the
symbolic model, so the model always succeeds. `now` is the wall clock in
seconds, passed explicitly. -/
def Generate (m : JWTManager) (userID email role : String) (now : Int) :
    Except Err Token :=
  .ok { claims := { userID := userID, email := email, role := role
                    issuedAt := now, expiresAt := now + m.expireHours * 3600 }
        signedWith := m.secret }

/-- Modelled from the spec (§4.1 `Verify`): fails with `InvalidToken` if
the signature does not match the manager's secret or expires_at ≤ now;
the error does not distinguish the causes. -/
def Validate (m : JWTManager) (token : Token) (now : Int) :
    Except Err Claims :=
  if token.signedWith ≠ m.secret then .error .invalidToken
  else if token.claims.expiresAt ≤ now then .error .invalidToken
  else .ok token.claims

end JWTManager

/-- `internal/service/auth_service.go`: `AuthResponse`. -/
structure AuthResponse where
  token : Token
  user : UserResponse
deriving DecidableEq, Repr

namespace authService

/-- `auth_service.go` lines 37–60: `authService.Login`. Any non-nil error
from `FindByEmail` — not-found and infrastructure failures alike — takes
the `return nil, ErrInvalidCredentials` branch. `compareHash` is
`bcrypt.CompareHashAndPassword(storedHash, candidate)` viewed as a
boolean (nil error = match). -/
def Login (repo : UserRepo) (compareHash : String → String → Bool)
    (m : JWTManager) (now : Int) (input : LoginInput) :
    Except Err AuthResponse :=
  match repo.findByEmail input.email with
  | .error _ => .error .invalidCredentials
  | .ok user =>
    if !compareHash user.password input.password then .error .invalidCredentials
    else if !user.isActive then .error .invalidCredentials
    else
      match m.Generate user.id user.email user.role now with
      | .error e => .error e
      | .ok token => .ok { token := token, user := toUserResponse user }

end authService

namespace BaseRepository

/-- `internal/repository/repository.go` lines 30–40:
`BaseRepository[T].FindAll`. The GORM calls are oracles: `count` is the
outcome of `Model(new(T)).Count(&total)` (on failure `total` keeps its
zero value 0 and the error is discarded — the `*gorm.DB` result's `Error`
field is never read); `find` maps (offset, limit) to the outcome of
`Offset(offset).Limit(perPage).Find(&entities)` (on failure `entities`
keeps its zero value, the empty slice). Returns (entities, total, err)
where err comes from the page query alone. -/
def FindAll {T : Type} (count : Except Err Int)
    (find : Int → Int → Except Err (List T)) (page perPage : Int) :
    List T × Int × Option Err :=
  let total : Int := match count with | .ok n => n | .error _ => 0
  let offset := (page - 1) * perPage
  match find offset perPage with
  | .ok entities => (entities, total, none)
  | .error e => ([], total, some e)

end BaseRepository

/-! Concrete backends and oracles used to instantiate the theorems. -/

/-- A concrete stored user. -/
def demoUser : User :=
  { id := "u-1", name := "John Doe", email := "john@example.com"
    password := "stored-bcrypt-hash", role := "user", isActive := true }

/-- `demoUser` with `is_active` false. -/
def demoInactiveUser : User := { demoUser with isActive := false }

/-- A backend holding no users: every lookup reports
`gorm.ErrRecordNotFound`, every write succeeds. -/
def emptyRepo : UserRepo :=
  { create := fun _ => none
    findByID := fun _ => .error .recordNotFound
    findByEmail := fun _ => .error .recordNotFound
    findAll := fun _ _ => .ok ([], 0)
    update := fun _ => none
    delete := fun _ => none }

/-- A backend whose read queries fail with an infrastructure error while
writes still succeed. -/
def lookupDownRepo : UserRepo :=
  { create := fun _ => none
    findByID := fun _ => .error (.infra "db down")
    findByEmail := fun _ => .error (.infra "db down")
    findAll := fun _ _ => .error (.infra "db down")
    update := fun _ => none
    delete := fun _ => none }

/-- A backend holding exactly `demoUser`. -/
def oneUserRepo : UserRepo :=
  { create := fun _ => none
    findByID := fun id =>
      if id = demoUser.id then .ok demoUser else .error .recordNotFound
    findByEmail := fun email =>
      if email = demoUser.email then .ok demoUser else .error .recordNotFound
    findAll := fun _ _ => .ok ([demoUser], 1)
    update := fun _ => none
    delete := fun _ => none }

/-- A backend holding exactly `demoInactiveUser`. -/
def inactiveUserRepo : UserRepo :=
  { create := fun _ => none
    findByID := fun id =>
      if id = demoInactiveUser.id then .ok demoInactiveUser
      else .error .recordNotFound
    findByEmail := fun email =>
      if email = demoInactiveUser.email then .ok demoInactiveUser
      else .error .recordNotFound
    findAll := fun _ _ => .ok ([demoInactiveUser], 1)
    update := fun _ => none
    delete := fun _ => none }

/-- A backend holding `demoUser` except with a different stored password
hash. -/
def otherHashRepo : UserRepo :=
  { oneUserRepo with
    findByID := fun id =>
      if id = demoUser.id then .ok { demoUser with password := "other-hash" }
      else .error .recordNotFound }

/-- A deterministic stand-in for `bcrypt.GenerateFromPassword` that
always succeeds. -/
def demoHash (plaintext : String) : Except Err String :=
  .ok ("bcrypt:" ++ plaintext)

/-- A concrete `CreateUserInput`. -/
def demoCreateInput : CreateUserInput :=
  { name := "John Doe", email := "john@example.com", password := "password123" }

/-- A concrete `LoginInput` for `demoUser`'s email. -/
def demoLogin : LoginInput :=
  { email := "john@example.com", password := "password123" }

/-- A concrete token manager (`jwt.NewJWTManager("test-secret", 24)`). -/
def demoManager : JWTManager := { secret := "test-secret", expireHours := 24 }

/-- The token `demoManager.Generate "user-123" "test@example.com"
"admin" 0` produces. -/
def demoToken : Token :=
  { claims := { userID := "user-123", email := "test@example.com"
                role := "admin", issuedAt := 0, expiresAt := 86400 }
    signedWith := "test-secret" }

/-! Theorems. -/

/-- `userService.FindAll` makes exactly one store call, with page and
perPage exactly as it received them. -/
theorem userService.findAll_trace (repo : UserRepo) (page perPage : Int) :
    (userService.FindAll repo page perPage).2 = [.findAll page perPage] := by
  unfold userService.FindAll
  rcases repo.findAll page perPage with e | ⟨users, total⟩ <;> rfl

/-- C1, counterexample: it is not the case that `userService.FindAll`
(the List operation) invokes the store with page = 1 whenever page < 1;
called with page = 0, the one store call it makes still has page = 0. -/
theorem findAll_service_does_not_normalize :
    ¬ (∀ (repo : UserRepo) (page perPage : Int), page < 1 →
        ∀ p pp : Int,
          RepoCall.findAll p pp ∈ (userService.FindAll repo page perPage).2 →
          p = 1) :=
  fun h => absurd (h emptyRepo 0 200 (by decide) 0 200 (by decide)) (by decide)

/-- C1, amended: the service passes page and per_page to the store
unchanged; the normalization (page<1 → 1, per_page outside [1,100] → 10,
per_page in [1,100] unchanged) happens one layer up, in
`UserHandler.FindAll`, before the service — and hence the store — is
called. -/
theorem pagination_normalized_in_handler_not_service
    (repo : UserRepo) (page perPage : Int) :
    (userService.FindAll repo page perPage).2 = [.findAll page perPage] ∧
    (page < 1 → (perPage < 1 ∨ 100 < perPage) →
      (UserHandler.FindAll repo page perPage).2 = [.findAll 1 10]) ∧
    (page < 1 → 1 ≤ perPage → perPage ≤ 100 →
      (UserHandler.FindAll repo page perPage).2 = [.findAll 1 perPage]) ∧
    (1 ≤ page → (perPage < 1 ∨ 100 < perPage) →
      (UserHandler.FindAll repo page perPage).2 = [.findAll page 10]) ∧
    (1 ≤ page → 1 ≤ perPage → perPage ≤ 100 →
      (UserHandler.FindAll repo page perPage).2 = [.findAll page perPage]) := by
  refine ⟨userService.findAll_trace repo page perPage, ?_, ?_, ?_, ?_⟩
  all_goals
    intros
    simp only [UserHandler.FindAll, userService.findAll_trace]
    split_ifs <;> first | rfl | (exfalso; omega)

/-- C1, witness for `pagination_normalized_in_handler_not_service` at
page = 0, per_page = 200. -/
theorem pagination_normalization_witness :
    (userService.FindAll emptyRepo 0 200).2 = [.findAll 0 200] ∧
    (UserHandler.FindAll emptyRepo 0 200).2 = [.findAll 1 10] :=
  ⟨(pagination_normalized_in_handler_not_service emptyRepo 0 200).1,
   (pagination_normalized_in_handler_not_service emptyRepo 0 200).2.1
     (by decide) (by decide)⟩

/-- C2, counterexample: with a backend whose `FindByEmail` fails with the
infrastructure error "db down" (not record-not-found), `Create` does not
return that error — it returns success — and it does perform the persist
call. -/
theorem create_lookup_infra_error_not_propagated :
    lookupDownRepo.findByEmail demoCreateInput.email =
      .error (Err.infra "db down") ∧
    (userService.Create lookupDownRepo demoHash demoCreateInput).1 ≠
      .error (Err.infra "db down") ∧
    RepoCall.create (newUserRecord demoCreateInput "bcrypt:password123") ∈
      (userService.Create lookupDownRepo demoHash demoCreateInput).2 := by
  decide

/-- C2, amended: when the uniqueness lookup fails with any error —
infrastructure errors included — `Create` discards the error and behaves
as if no user with that email exists: it hashes the password, performs
the persist call, and returns the persist outcome; the lookup error is
never returned. -/
theorem create_ignores_lookup_error
    (repo : UserRepo) (hashFn : String → Except Err String)
    (input : CreateUserInput) (e : Err) (hashed : String)
    (hfe : repo.findByEmail input.email = .error e)
    (hh : hashFn input.password = .ok hashed) :
    (userService.Create repo hashFn input).2 =
      [.findByEmail input.email, .create (newUserRecord input hashed)] ∧
    (userService.Create repo hashFn input).1 =
      (match repo.create (newUserRecord input hashed) with
       | some e2 => .error e2
       | none => .ok (toUserResponse (newUserRecord input hashed))) := by
  constructor <;>
    rcases hc : repo.create (newUserRecord input hashed) with _ | e2 <;>
      simp [userService.Create, hfe, hh, hc]

/-- C2, witness for `create_ignores_lookup_error` on `lookupDownRepo`. -/
theorem create_ignores_lookup_error_witness :
    (userService.Create lookupDownRepo demoHash demoCreateInput).2 =
      [.findByEmail demoCreateInput.email,
       .create (newUserRecord demoCreateInput "bcrypt:password123")] ∧
    (userService.Create lookupDownRepo demoHash demoCreateInput).1 =
      (match lookupDownRepo.create (newUserRecord demoCreateInput "bcrypt:password123") with
       | some e2 => .error e2
       | none => .ok (toUserResponse (newUserRecord demoCreateInput "bcrypt:password123"))) :=
  create_ignores_lookup_error lookupDownRepo demoHash demoCreateInput
    (.infra "db down") "bcrypt:password123" rfl rfl

/-- C3, counterexample: when the user lookup fails with the
infrastructure error "db down" (the backend is unavailable), `Login`
returns `ErrInvalidCredentials`, not that infrastructure error. -/
theorem login_lookup_infra_error_collapsed :
    lookupDownRepo.findByEmail demoLogin.email = .error (Err.infra "db down") ∧
    authService.Login lookupDownRepo (fun _ _ => true) demoManager 0 demoLogin =
      .error .invalidCredentials ∧
    Err.invalidCredentials ≠ Err.infra "db down" := by
  decide

/-- C3, amended: when the user lookup fails for any reason —
record-not-found and infrastructure failures alike — `Login` returns
`ErrInvalidCredentials`; a lookup infrastructure error is never
propagated as a distinct error value. -/
theorem login_lookup_failure_always_invalid_credentials
    (repo : UserRepo) (compareHash : String → String → Bool)
    (m : JWTManager) (now : Int) (input : LoginInput) (e : Err)
    (hfe : repo.findByEmail input.email = .error e) :
    authService.Login repo compareHash m now input =
      .error .invalidCredentials := by
  unfold authService.Login
  rw [hfe]

/-- C3, witness for `login_lookup_failure_always_invalid_credentials`
with the backend down. -/
theorem login_lookup_failure_witness :
    authService.Login lookupDownRepo (fun _ _ => true) demoManager 0 demoLogin =
      .error .invalidCredentials :=
  login_lookup_failure_always_invalid_credentials lookupDownRepo
    (fun _ _ => true) demoManager 0 demoLogin (.infra "db down") rfl

/-- C4: the three failure causes — no user with the email, password not
matching the stored hash, and an inactive account — all make `Login`
fail with the single sentinel value `ErrInvalidCredentials`, so they are
indistinguishable by value to the caller. -/
theorem login_failure_modes_indistinguishable
    (repo : UserRepo) (compareHash : String → String → Bool)
    (m : JWTManager) (now : Int) (input : LoginInput) :
    (∀ e : Err, repo.findByEmail input.email = .error e →
      authService.Login repo compareHash m now input =
        .error .invalidCredentials) ∧
    (∀ u : User, repo.findByEmail input.email = .ok u →
      compareHash u.password input.password = false →
      authService.Login repo compareHash m now input =
        .error .invalidCredentials) ∧
    (∀ u : User, repo.findByEmail input.email = .ok u →
      u.isActive = false →
      authService.Login repo compareHash m now input =
        .error .invalidCredentials) := by
  refine ⟨?_, ?_, ?_⟩
  · intro e hfe
    unfold authService.Login
    rw [hfe]
  · intro u hfe hc
    unfold authService.Login
    rw [hfe]
    simp [hc]
  · intro u hfe ha
    unfold authService.Login
    rw [hfe]
    cases hc : compareHash u.password input.password <;> simp [hc, ha]

/-- C4, witness for `login_failure_modes_indistinguishable`: a
nonexistent email against an empty backend, a wrong password against
`demoUser`, and an inactive `demoInactiveUser`, all yield the same error
value. -/
theorem login_failure_modes_witness :
    authService.Login emptyRepo (fun _ _ => true) demoManager 0 demoLogin =
      .error .invalidCredentials ∧
    authService.Login oneUserRepo (fun _ _ => false) demoManager 0 demoLogin =
      .error .invalidCredentials ∧
    authService.Login inactiveUserRepo (fun _ _ => true) demoManager 0 demoLogin =
      .error .invalidCredentials :=
  ⟨(login_failure_modes_indistinguishable emptyRepo (fun _ _ => true)
      demoManager 0 demoLogin).1 .recordNotFound rfl,
   (login_failure_modes_indistinguishable oneUserRepo (fun _ _ => false)
      demoManager 0 demoLogin).2.1 demoUser rfl rfl,
   (login_failure_modes_indistinguishable inactiveUserRepo (fun _ _ => true)
      demoManager 0 demoLogin).2.2 demoInactiveUser rfl rfl⟩

/-- C5: when the backend reports `gorm.ErrRecordNotFound` for an id,
`FindByID`, `Update` and `Delete` all fail with `ErrUserNotFound`, and
`Delete` performs no delete call on the store (its only store call is the
existence check). -/
theorem notFound_mapped_uniformly
    (repo : UserRepo) (id : String) (input : UpdateUserInput)
    (h : repo.findByID id = .error .recordNotFound) :
    (userService.FindByID repo id).1 = .error .userNotFound ∧
    (userService.Update repo id input).1 = .error .userNotFound ∧
    (userService.Delete repo id).1 = some .userNotFound ∧
    (userService.Delete repo id).2 = [.findByID id] := by
  refine ⟨?_, ?_, ?_, ?_⟩ <;>
    simp [userService.FindByID, userService.Update, userService.Delete, h]

/-- C5, witness for `notFound_mapped_uniformly` on the empty backend. -/
theorem notFound_mapped_uniformly_witness :
    (userService.FindByID emptyRepo "u-404").1 = .error .userNotFound ∧
    (userService.Update emptyRepo "u-404" { name := "New" }).1 =
      .error .userNotFound ∧
    (userService.Delete emptyRepo "u-404").1 = some .userNotFound ∧
    (userService.Delete emptyRepo "u-404").2 = [.findByID "u-404"] :=
  notFound_mapped_uniformly emptyRepo "u-404" { name := "New" } rfl

/-- C6: when the backend holds a user under the id, `Update` persists
exactly `applyUpdate u input`: its name is the old name when the input
name is empty and the input name otherwise, and its id, email, password
hash, role and is_active are those of the fetched user, unchanged. -/
theorem update_changes_only_name
    (repo : UserRepo) (id : String) (input : UpdateUserInput) (u : User)
    (h : repo.findByID id = .ok u) :
    (userService.Update repo id input).2 =
      [.findByID id, .update (userService.applyUpdate u input)] ∧
    (userService.applyUpdate u input).name =
      (if input.name = "" then u.name else input.name) ∧
    (userService.applyUpdate u input).id = u.id ∧
    (userService.applyUpdate u input).email = u.email ∧
    (userService.applyUpdate u input).password = u.password ∧
    (userService.applyUpdate u input).role = u.role ∧
    (userService.applyUpdate u input).isActive = u.isActive := by
  have happ : ∀ f : User → String, f (userService.applyUpdate u input) =
      (if input.name ≠ "" then f { u with name := input.name } else f u) := by
    intro f
    unfold userService.applyUpdate
    split <;> rfl
  refine ⟨?_, ?_, ?_, ?_, ?_, ?_, ?_⟩
  · rcases hc : repo.update (userService.applyUpdate u input) with _ | e <;>
      simp [userService.Update, h, hc]
  · rw [happ (fun x => x.name)]
    by_cases hn : input.name = "" <;> simp [hn]
  · rw [happ (fun x => x.id)]; split <;> rfl
  · rw [happ (fun x => x.email)]; split <;> rfl
  · rw [happ (fun x => x.password)]; split <;> rfl
  · rw [happ (fun x => x.role)]; split <;> rfl
  · unfold userService.applyUpdate; split <;> rfl

/-- C6, witness for `update_changes_only_name`: updating `demoUser` with
the empty name. -/
theorem update_changes_only_name_witness :
    (userService.Update oneUserRepo "u-1" { name := "" }).2 =
      [.findByID "u-1", .update (userService.applyUpdate demoUser { name := "" })] ∧
    (userService.applyUpdate demoUser { name := "" }).name =
      (if "" = "" then demoUser.name else "") ∧
    (userService.applyUpdate demoUser { name := "" }).id = demoUser.id ∧
    (userService.applyUpdate demoUser { name := "" }).email = demoUser.email ∧
    (userService.applyUpdate demoUser { name := "" }).password = demoUser.password ∧
    (userService.applyUpdate demoUser { name := "" }).role = demoUser.role ∧
    (userService.applyUpdate demoUser { name := "" }).isActive = demoUser.isActive :=
  update_changes_only_name oneUserRepo "u-1" { name := "" } demoUser rfl

/-- C7: when the uniqueness lookup finds an existing user under the
input email, `Create` fails with `ErrEmailAlreadyExists` and its only
store call is the lookup — no persist call is made. -/
theorem create_existing_email_no_persist
    (repo : UserRepo) (hashFn : String → Except Err String)
    (input : CreateUserInput) (u : User)
    (h : repo.findByEmail input.email = .ok u) :
    (userService.Create repo hashFn input).1 = .error .emailAlreadyExists ∧
    (userService.Create repo hashFn input).2 = [.findByEmail input.email] := by
  constructor <;> simp [userService.Create, h]

/-- C7, witness for `create_existing_email_no_persist`: creating with
`demoUser`'s email against the backend that holds `demoUser`. -/
theorem create_existing_email_witness :
    (userService.Create oneUserRepo demoHash demoCreateInput).1 =
      .error .emailAlreadyExists ∧
    (userService.Create oneUserRepo demoHash demoCreateInput).2 =
      [.findByEmail demoCreateInput.email] :=
  create_existing_email_no_persist oneUserRepo demoHash demoCreateInput
    demoUser rfl

/-- C8: the outward serialization never depends on the stored password
hash: `UserResponse` has exactly the fields id, name, email, role,
is_active, and two stored users that agree on those fields — however
their password hashes differ — produce the same `toUserResponse`, and
the same `FindByID` operation result from backends returning them. -/
theorem response_independent_of_password_hash
    (u₁ u₂ : User) (hid : u₁.id = u₂.id) (hn : u₁.name = u₂.name)
    (he : u₁.email = u₂.email) (hr : u₁.role = u₂.role)
    (ha : u₁.isActive = u₂.isActive) :
    toUserResponse u₁ = toUserResponse u₂ ∧
    (∀ (repo₁ repo₂ : UserRepo) (id : String),
      repo₁.findByID id = .ok u₁ → repo₂.findByID id = .ok u₂ →
      (userService.FindByID repo₁ id).1 = (userService.FindByID repo₂ id).1) := by
  have hresp : toUserResponse u₁ = toUserResponse u₂ := by
    simp [toUserResponse, hid, hn, he, hr, ha]
  refine ⟨hresp, ?_⟩
  intro repo₁ repo₂ id h₁ h₂
  simp [userService.FindByID, h₁, h₂, hresp]

/-- C8, witness for `response_independent_of_password_hash`: two copies
of `demoUser` with different password hashes serialize identically. -/
theorem response_independent_witness :
    toUserResponse demoUser =
      toUserResponse { demoUser with password := "other-hash" } ∧
    (userService.FindByID oneUserRepo "u-1").1 =
      (userService.FindByID otherHashRepo "u-1").1 :=
  ⟨(response_independent_of_password_hash demoUser
      { demoUser with password := "other-hash" } rfl rfl rfl rfl rfl).1,
   (response_independent_of_password_hash demoUser
      { demoUser with password := "other-hash" } rfl rfl rfl rfl rfl).2
     oneUserRepo otherHashRepo "u-1" rfl rfl⟩

/-- C9: for every manager with TTL > 0 hours, a token produced by
`Generate` and passed to `Validate` on the same manager at the issuing
instant succeeds, and the returned claims carry the issued subject,
email and role. -/
theorem token_roundtrip
    (m : JWTManager) (userID email role : String) (now : Int)
    (h : 0 < m.expireHours) (token : Token)
    (hg : m.Generate userID email role now = .ok token) :
    m.Validate token now = .ok token.claims ∧
    token.claims.userID = userID ∧
    token.claims.email = email ∧
    token.claims.role = role := by
  have htok : token =
      { claims := { userID := userID, email := email, role := role
                    issuedAt := now, expiresAt := now + m.expireHours * 3600 }
        signedWith := m.secret } := by
    unfold JWTManager.Generate at hg
    exact (Except.ok.inj hg).symm
  subst htok
  refine ⟨?_, rfl, rfl, rfl⟩
  unfold JWTManager.Validate
  rw [if_neg (show ¬(m.secret ≠ m.secret) from fun hc => hc rfl),
    if_neg (show ¬(now + m.expireHours * 3600 ≤ now) by omega)]

/-- C9, witness for `token_roundtrip` on `demoManager` (TTL 24 h). -/
theorem token_roundtrip_witness :
    demoManager.Validate demoToken 0 = .ok demoToken.claims ∧
    demoToken.claims.userID = "user-123" ∧
    demoToken.claims.email = "test@example.com" ∧
    demoToken.claims.role = "admin" :=
  token_roundtrip demoManager "user-123" "test@example.com" "admin" 0
    (by decide) demoToken rfl

/-- C10: when the count query fails and the page query succeeds,
`BaseRepository.FindAll` returns the page items, total 0 (the discarded
count's zero value) and a nil error. -/
theorem findAll_discards_count_error
    (e : Err) (find : Int → Int → Except Err (List User))
    (page perPage : Int) (items : List User)
    (hf : find ((page - 1) * perPage) perPage = .ok items) :
    BaseRepository.FindAll (.error e) find page perPage = (items, 0, none) := by
  simp [BaseRepository.FindAll, hf]

/-- C10, witness for `findAll_discards_count_error`: the count query
fails, the page query returns one user, and the caller sees a nil error
with a non-empty page and total 0. -/
theorem findAll_discards_count_error_witness :
    BaseRepository.FindAll (.error (Err.infra "count failed"))
      (fun _ _ => .ok [demoUser]) 1 10 = ([demoUser], 0, none) :=
  findAll_discards_count_error (Err.infra "count failed")
    (fun _ _ => .ok [demoUser]) 1 10 [demoUser] rfl
